import Mathlib

/-!
# DreamDirector: shallow embedding of the story state machine

This file embeds the narrative-orchestration core of the DreamDirector
repository (`src/agents/agent.py`, `src/backend/app.py`) as executable Lean
definitions and proves/refutes the frozen specification claims about it.

Modelling conventions:

* The process-wide mutable `game_state` is threaded explicitly: every
  operation takes a `GameState` and returns the updated `GameState` together
  with the dictionary it returns in Python.
* External collaborators (text generation, image/video providers, the AI
  choice generator) are independently fallible; their outcomes are passed in
  as `Option` arguments (`none` = provider unreachable / errored / returned
  nothing, `some v` = success with payload `v`).  `MEDIA_GENERATION_AVAILABLE`
  is an explicit `Bool` argument.
* Music generation (`trigger_scene_music`, `generate_scene_music`,
  `orchestrate_adaptive_music`) only spawns detached background work and
  performs no synchronous mutation of the story state, so it is modelled as a
  no-op on the state.
* A Python function that can terminate with an uncaught exception is modelled
  with `Except GameState`, the error payload being the state at the moment the
  exception is raised.
* Python dictionaries keyed by strings are modelled as association lists;
  timestamps carry no information used by any claim and are dropped.
-/

/-- Containment of `pat` as a contiguous run inside `s` (character lists). -/
def listContainsChars : List Char → List Char → Bool
  | [], pat => pat.isEmpty
  | c :: tail, pat => pat.isPrefixOf (c :: tail) || listContainsChars tail pat

/-- ASCII lowercasing, as Python `str.lower()` acts on the ASCII scene and
request texts of this repository. -/
def strLower (s : String) : String := String.mk (s.data.map Char.toLower)

/-- Case-insensitive substring test: Python `pat in s.lower()` (the patterns
used by the source are already lowercase). -/
def strContainsLower (s pat : String) : Bool :=
  listContainsChars (strLower s).data pat.data

/-- Substring-of relation on strings (used to state "contains ... verbatim"). -/
def containsStr (big small : String) : Prop :=
  ∃ pre post, big = pre ++ small ++ post

/-- `scene_media_count` dictionary of `GameState`. -/
structure MediaCount where
  images : Nat
  videos : Nat
  music : Nat
  deriving Repr, DecidableEq

/-- `VisualStyle` dataclass: maintains visual consistency references. -/
structure VisualStyle where
  art_style : String
  color_palette : String
  character_references : List (String × String)
  location_references : List (String × String)
  style_seed : String
  deriving Repr, DecidableEq

/-- One entry of `story_history`.  Each constructor mirrors the `type` tag of
the dictionary appended by the corresponding Python function, carrying the
payload fields that the claims inspect. -/
inductive StoryEvent where
  | openingScene (location : String)
  | characterIntroduction (name : String)
  | choiceMoment (situation : String)
  | choiceResolution (chosen narrative : String)
  | storyContinuation (narrative newScene : String) (choicesMade : Nat)
  | storyClimax (finalChoice : String)
  deriving Repr, DecidableEq

/-- The `GameState` dataclass. -/
structure GameState where
  current_scene : String
  current_mood : String
  characters_present : List String
  user_inventory : List String
  story_history : List StoryEvent
  world_knowledge : List (String × String)
  current_danger_level : Nat
  user_choices_made : Nat
  generated_images : List String
  generated_videos : List String
  generated_music : List String
  visual_style : VisualStyle
  scene_media_count : MediaCount
  deriving Repr, DecidableEq

/-- The dataclass defaults: `GameState()` as constructed at module load. -/
def initialGameState : GameState :=
  { current_scene := "mysterious_forest"
    current_mood := "mysterious"
    characters_present := []
    user_inventory := []
    story_history := []
    world_knowledge := []
    current_danger_level := 1
    user_choices_made := 0
    generated_images := []
    generated_videos := []
    generated_music := []
    visual_style :=
      { art_style := "cinematic fantasy realism"
        color_palette := "rich atmospheric lighting with dramatic shadows"
        character_references := []
        location_references := []
        style_seed := "epic_fantasy_2024" }
    scene_media_count := { images := 0, videos := 0, music := 0 } }

/-- `generate_consistent_image`: on provider success the filename is appended
to `generated_images` and `scene_media_count["images"]` is incremented; on
provider failure (client unavailable or exception) the state is untouched and
`None` is returned. -/
def generate_consistent_image (providerResult : Option String) (s : GameState) :
    GameState × Option String :=
  match providerResult with
  | none => (s, none)
  | some fname =>
      ({ s with
          generated_images := s.generated_images ++ [fname]
          scene_media_count :=
            { s.scene_media_count with images := s.scene_media_count.images + 1 } },
        some fname)

/-- `generate_establishing_scene`: generates at most one image per experience
(`should_generate_image = scene_media_count["images"] < 1`), records a location
reference on success.  The adaptive-music trigger has no state effect. -/
def generate_establishing_scene (mediaAvailable : Bool) (providerResult : Option String)
    (location mood details characters : String) (s : GameState) :
    GameState × Option String :=
  if s.scene_media_count.images < 1 ∧ mediaAvailable = true then
    match generate_consistent_image providerResult s with
    | (s1, some fname) =>
        ({ s1 with
            visual_style :=
              { s1.visual_style with
                  location_references :=
                    (location, fname) :: s1.visual_style.location_references } },
          some fname)
    | (s1, none) => (s1, none)
  else (s, none)

/-- `create_single_choice_image`: generates one image for a choice outcome.
It performs NO budget check, and on success it appends the filename to
`generated_images` a second time (the first append happens inside
`generate_consistent_image`) and increments the images counter a second time. -/
def create_single_choice_image (mediaAvailable : Bool) (providerResult : Option String)
    (chosen_action difficulty context : String) (s : GameState) :
    GameState × Option String :=
  if mediaAvailable then
    match generate_consistent_image providerResult s with
    | (s1, some fname) =>
        ({ s1 with
            generated_images := s1.generated_images ++ [fname]
            scene_media_count :=
              { s1.scene_media_count with images := s1.scene_media_count.images + 1 } },
          some fname)
    | (s1, none) => (s1, none)
  else (s, none)

/-- `create_dramatic_outcome`: dramatic music (no state effect) plus the single
choice image. -/
def create_dramatic_outcome (mediaAvailable : Bool) (providerResult : Option String)
    (chosen_action difficulty context : String) (s : GameState) :
    GameState × Option String :=
  create_single_choice_image mediaAvailable providerResult
    chosen_action difficulty context s

/-- A demo scenario entry of the `demo_scenarios` table. -/
structure Scenario where
  setting : String
  hook : String
  characters : List String
  visual_style : String
  music_themes : List String
  choices : List String
  deriving Repr, DecidableEq

/-- `demo_scenarios["Cyberpunk Detective Noir"]`. -/
def cyberpunkScenario : Scenario :=
  { setting := "Neo-Tokyo 2087: A rain-soaked metropolis where corporate zaibatsus control reality through neural implants"
    hook := "You\x27re a rogue detective investigating the mysterious \x27Serpent\x27s Eye\x27 conspiracy in the digital underground"
    characters := ["Kira Nakamura - Cybernetic hacker with secrets",
                   "Director Sato - Corporate overseer with hidden agenda"]
    visual_style := "cyberpunk noir with neon highlights and atmospheric rain"
    music_themes := ["Synthwave noir", "Corporate tension", "Underground resistance"]
    choices := ["Infiltrate the corporate tower", "Meet with underground contacts",
                "Investigate the abandoned subway"] }

/-- `demo_scenarios["Enchanted Forest Mystery"]`. -/
def forestScenario : Scenario :=
  { setting := "An ancient forest where magic flows through twisted trees and glowing flowers"
    hook := "You discover a hidden grove where a mysterious figure guards the Pool of Fates"
    characters := ["Fate Weaver - Ancient guardian with cryptic wisdom",
                   "Flickering Flame - Playful forest spirit"]
    visual_style := "mystical fantasy with ethereal lighting and magical particles"
    music_themes := ["Mystical forest ambience", "Ancient magic", "Ethereal wonder"]
    choices := ["Approach the guardian peacefully", "Observe from the shadows",
                "Call out boldly"] }

/-- `demo_scenarios["Dragon\x27s Lair Confrontation"]`. -/
def dragonScenario : Scenario :=
  { setting := "The volcanic lair of an ancient dragon filled with treasures and dangerous magic"
    hook := "The dragon offers you a choice: great power or great wisdom, but not both"
    characters := ["Pyraxis the Ancient - Wise but dangerous dragon",
                   "Echo - Dragon\x27s mysterious companion"]
    visual_style := "epic fantasy with dramatic fire lighting and volcanic atmosphere"
    music_themes := ["Epic orchestral drama", "Dragon\x27s ancient power", "Volcanic ambience"]
    choices := ["Accept the power", "Choose wisdom", "Propose an alternative"] }

/-- The generic fallback scenario built from the request text. -/
def customScenario (user_story_request : String) : Scenario :=
  { setting := "An immersive world based on: " ++ user_story_request
    hook := "Your adventure begins with an intriguing mystery that draws you in..."
    characters := ["Mysterious Guide", "Helpful Ally"]
    visual_style := "cinematic realism with atmospheric lighting"
    music_themes := ["Adventure atmosphere", "Mystery and discovery"]
    choices := ["Investigate boldly", "Proceed cautiously", "Seek allies first"] }

/-- The keyword classification of `start_new_adventure`: first matching
template wins, unmatched requests fall back to the custom scenario. -/
def classify_story (user_story_request : String) : String × Scenario :=
  if strContainsLower user_story_request "cyberpunk"
      || strContainsLower user_story_request "detective" then
    ("cyberpunk", cyberpunkScenario)
  else if strContainsLower user_story_request "fantasy"
      || strContainsLower user_story_request "knight"
      || strContainsLower user_story_request "dragon" then
    ("fantasy", dragonScenario)
  else if strContainsLower user_story_request "forest"
      || strContainsLower user_story_request "magic" then
    ("mystical", forestScenario)
  else
    ("adventure", customScenario user_story_request)

/-- The dictionary returned by `start_new_adventure`. -/
structure StartResult where
  user_request : String
  story_type : String
  scenario : Scenario
  deriving Repr, DecidableEq

/-- `start_new_adventure`: classifies the request, initialises the story
world (scene, mood, art style) and resets `story_history`,
`scene_media_count` and `user_choices_made`.  No other field is touched. -/
def start_new_adventure (user_story_request : String) (s : GameState) :
    GameState × StartResult :=
  let story_type := (classify_story user_story_request).1
  let scenario := (classify_story user_story_request).2
  ({ s with
      current_scene := scenario.setting
      current_mood := "mysterious"
      visual_style := { s.visual_style with art_style := scenario.visual_style }
      story_history := []
      scene_media_count := { images := 0, videos := 0, music := 0 }
      user_choices_made := 0 },
    { user_request := user_story_request
      story_type := story_type
      scenario := scenario })

/-- `begin_opening_scene`: establishing scene for the current setting plus an
`opening_scene` history entry. -/
def begin_opening_scene (mediaAvailable : Bool) (providerResult : Option String)
    (s : GameState) : GameState × Option String :=
  let current_setting := s.current_scene
  let r := generate_establishing_scene mediaAvailable providerResult
    current_setting "mysterious"
    "The adventure begins with an atmosphere of mystery and possibility" "" s
  ({ r.1 with
      story_history := r.1.story_history ++ [StoryEvent.openingScene current_setting] },
    r.2)

/-- The deterministic fallback sentence of `resolve_user_choice` (used when the
text-generation collaborator fails). -/
def fallback_narrative (chosen_option current_scene : String) : String :=
  "Your choice to " ++ chosen_option ++ " has immediate consequences in " ++
    current_scene ++ ". The situation evolves as you face the results of your decision."

/-- Narrative selection of `resolve_user_choice`: collaborator text on
success, deterministic fallback on failure. -/
def resolve_narrative (textResult : Option String) (chosen_option current_scene : String) :
    String :=
  match textResult with
  | some t => t
  | none => fallback_narrative chosen_option current_scene

/-- The dictionary returned by `resolve_user_choice`. -/
structure ResolveResult where
  chosen_option : String
  ai_narrative : String
  story_progress : Nat
  danger_level : Nat
  user_choices_made : Nat
  next_step : String
  deriving Repr, DecidableEq

/-- `resolve_user_choice`: AI (or fallback) narrative, dramatic-outcome media,
history append, then `current_danger_level += 1` and `user_choices_made += 1`
unconditionally.  Note the danger increment has no cap. -/
def resolve_user_choice (textResult : Option String) (mediaAvailable : Bool)
    (imageResult : Option String) (chosen_option : String) (s : GameState) :
    GameState × ResolveResult :=
  let ai_narrative := resolve_narrative textResult chosen_option s.current_scene
  let s1 := (create_dramatic_outcome mediaAvailable imageResult
    ("chosen action: " ++ chosen_option) "moderate" s.current_scene s).1
  let s2 := { s1 with
      story_history :=
        s1.story_history ++ [StoryEvent.choiceResolution chosen_option ai_narrative]
      current_danger_level := s1.current_danger_level + 1
      user_choices_made := s1.user_choices_made + 1 }
  (s2,
    { chosen_option := chosen_option
      ai_narrative := ai_narrative
      story_progress := s2.story_history.length
      danger_level := s2.current_danger_level
      user_choices_made := s2.user_choices_made
      next_step := if s2.user_choices_made < 5 then "continue_story" else "story_climax" })

/-- The scenario-family keyword classification used by `continue_narrative`
on `current_scene.lower()` (first match wins: cyberpunk, atlantis, forest). -/
inductive Family where
  | cyberpunk
  | atlantis
  | forest
  | generic
  deriving Repr, DecidableEq

/-- Derive the scenario family of the current scene. -/
def sceneFamily (scene : String) : Family :=
  if strContainsLower scene "cyberpunk" then Family.cyberpunk
  else if strContainsLower scene "atlantis" then Family.atlantis
  else if strContainsLower scene "forest" then Family.forest
  else Family.generic

/-- The hardcoded branch table of `continue_narrative`: for each
`choices_made` in 1..4 and scenario family, the new scene, the narrative
passage, and the characters appended to `characters_present`.  Outside 1..4 no
branch assigns `narrative_continuation` (`none`). -/
def contBranch (choices_made : Nat) (fam : Family) (scene : String) :
    Option (String × String × List String) :=
  if choices_made = 1 then
    some (match fam with
      | Family.cyberpunk =>
          ("A hidden underground resistance hideout beneath Neo-Tokyo",
           "Your actions have triggered corporate attention. You\x27ve been contacted by the underground resistance and brought to their secret base. The stakes have escalated - they reveal the Serpent\x27s Eye conspiracy goes deeper than anyone imagined.",
           [])
      | Family.atlantis =>
          ("The ancient Atlantean throne room with mystical technology",
           "Your exploration has awakened something ancient. The ruins have led you to a massive throne room where Atlantean technology still hums with power. Ancient guardians stir, and you realize you\x27ve stumbled into something far greater than a simple exploration.",
           [])
      | Family.forest =>
          ("A mystical clearing where reality bends and magic flows freely",
           "Your choice has opened a path deeper into the enchanted realm. You now stand in a clearing where the very air shimmers with magic, and you can see portals to other realms flickering in and out of existence.",
           [])
      | Family.generic =>
          ("A deeper, more dangerous part of " ++ scene,
           "Your actions have consequences. The situation has evolved, and you find yourself facing unexpected challenges that will test your resolve.",
           []))
  else if choices_made = 2 then
    some (match fam with
      | Family.cyberpunk =>
          ("The corporate zaibatsu tower\x27s executive floors",
           "The resistance mission has brought you into the heart of enemy territory. You\x27re now infiltrating the highest levels of the corporate tower, where reality itself can be manipulated through neural networks. Corporate agents are closing in.",
           ["Director Sato - Corporate AI Overlord"])
      | Family.atlantis =>
          ("The abyssal depths where ancient leviathans guard Atlantean secrets",
           "The throne room revealed a path to the deepest ocean trenches. Here, massive sea creatures that have lived since Atlantis fell guard the most powerful artifacts. You must prove yourself worthy or face their ancient wrath.",
           ["Tidal Guardian - Ancient Atlantean Protector"])
      | Family.forest =>
          ("The Shadowrealm where dark magic and light magic clash eternally",
           "Your magical exploration has drawn you into the Shadowrealm, a dimension where the battle between light and dark magic rages eternally. Here, your choices will determine which side of the cosmic balance you support.",
           ["Shadow Weaver - Keeper of Dark Mysteries"])
      | Family.generic =>
          ("A completely new location connected to " ++ scene,
           "Your journey has taken an unexpected turn. You\x27ve discovered a new realm connected to your adventure, where new allies and enemies await.",
           []))
  else if choices_made = 3 then
    some (match fam with
      | Family.cyberpunk =>
          ("The digital realm inside the neural network itself",
           "You\x27ve jacked directly into the corporate neural network. Reality is now digital - you exist as data, fighting AI constructs in a realm where thoughts become weapons and memories can be rewritten. The final confrontation with the AI overlord approaches.",
           [])
      | Family.atlantis =>
          ("The timestream portal chamber where past and future Atlantis collide",
           "The leviathans\x27 test has opened a temporal rift. You can now see Atlantis in its prime and witness its fall. You have the power to change history itself, but doing so could unravel reality.",
           [])
      | Family.forest =>
          ("The World Tree\x27s crown where cosmic forces converge",
           "Your choices in the Shadowrealm have earned you passage to the World Tree\x27s crown. Here, at the nexus of all realities, you can reshape the fundamental forces of nature itself. But cosmic entities watch your every move.",
           [])
      | Family.generic =>
          ("The climactic confrontation arising from " ++ scene,
           "The ultimate challenge reveals itself. Everything you\x27ve done has led to this pivotal moment where your choices will determine not just your fate, but the fate of all involved.",
           []))
  else if choices_made = 4 then
    some (match fam with
      | Family.cyberpunk =>
          ("The core of the Serpent\x27s Eye AI system - reality\x27s command center",
           "You\x27ve reached the heart of the conspiracy. The Serpent\x27s Eye is revealed to be a quantum AI that controls reality itself through neural manipulation. One final choice will determine whether humanity remains free or becomes permanently enslaved to artificial intelligence.",
           [])
      | Family.atlantis =>
          ("The moment of Atlantis\x27s original fall - you can change everything",
           "You stand at the exact moment of Atlantis\x27s destruction. With the power you\x27ve gained, you can prevent the fall of the greatest civilization ever known. But doing so might prevent humanity from ever learning to protect itself from such power.",
           [])
      | Family.forest =>
          ("The cosmic loom where reality\x27s threads can be rewoven",
           "At the World Tree\x27s peak, you\x27ve found the cosmic loom that weaves the threads of reality itself. You can reshape the natural order, restore balance to magic, or claim ultimate power. The cosmic forces await your final decision.",
           [])
      | Family.generic =>
          ("The ultimate threshold of " ++ scene,
           "You stand at the ultimate threshold. Your journey has brought you to a point where a single choice will reshape everything. The final moment of truth has arrived.",
           []))
  else none

/-- The dictionary returned by `continue_narrative`. -/
structure ContinueResult where
  narrative : String
  current_scene : String
  user_choices_made : Nat
  choices_remaining : Nat
  danger_level : Nat
  deriving Repr, DecidableEq

/-- `continue_narrative`: scene evolution from the branch table keyed by
`(user_choices_made, scene family)`; recomputes
`current_danger_level = min(10, 3 + choices_made * 2)`; appends a
`story_continuation` history entry.  When `user_choices_made` lies outside
1..4, `narrative_continuation` is never assigned and the Python function dies
with an uncaught `UnboundLocalError` at the history-append statement — after
the danger level has already been recomputed; this is the `.error` case, whose
payload is the state at the moment of the exception.  The music call spawns a
background thread and has no synchronous state effect. -/
def continue_narrative (s : GameState) :
    Except GameState (GameState × ContinueResult) :=
  let choices_made := s.user_choices_made
  match contBranch choices_made (sceneFamily s.current_scene) s.current_scene with
  | none =>
      Except.error
        { s with current_danger_level := min 10 (3 + choices_made * 2) }
  | some (newScene, narrative, chars) =>
      let s1 := { s with
          current_scene := newScene
          characters_present := s.characters_present ++ chars
          current_danger_level := min 10 (3 + choices_made * 2) }
      let s2 := { s1 with
          story_history :=
            s1.story_history ++
              [StoryEvent.storyContinuation narrative newScene choices_made] }
      Except.ok (s2,
        { narrative := narrative
          current_scene := newScene
          user_choices_made := choices_made
          choices_remaining := 5 - choices_made
          danger_level := min 10 (3 + choices_made * 2) })

/-- The derived situation of `present_story_choice` when none is supplied. -/
def derived_situation (situation scene : String) : String :=
  if situation = "" then
    "You find yourself in " ++ scene ++ ". What is your next move?"
  else situation

/-- The dictionary returned by `present_story_choice`. -/
structure PresentResult where
  situation : String
  choice_a : String
  choice_b : String
  choice_c : String
  deriving Repr, DecidableEq

/-- `present_story_choice`: derives the situation when empty; when no explicit
choice text is supplied, delegates to the AI collaborator (`aiChoices`); on
collaborator failure the choices stay as passed (empty strings — a soft
failure).  Appends a `choice_moment` history entry. -/
def present_story_choice (aiChoices : Option (String × String × String))
    (situation choice_a choice_b choice_c : String) (s : GameState) :
    GameState × PresentResult :=
  let sit := derived_situation situation s.current_scene
  let cs :=
    if choice_a = "" ∧ choice_b = "" ∧ choice_c = "" then
      match aiChoices with
      | some t => t
      | none => (choice_a, choice_b, choice_c)
    else (choice_a, choice_b, choice_c)
  ({ s with story_history := s.story_history ++ [StoryEvent.choiceMoment sit] },
    { situation := sit, choice_a := cs.1, choice_b := cs.2.1, choice_c := cs.2.2 })

/-- `create_epic_climax_video`: uses the most recent generated image as seed;
without a seed, without media support, or on provider failure no video is
produced.  On success `generate_video_from_image_seed` appends the filename to
`generated_videos` and increments the videos counter, and
`create_epic_climax_video` appends the same filename a second time. -/
def create_epic_climax_video (mediaAvailable : Bool) (videoResult : Option String)
    (final_choice context : String) (s : GameState) : GameState × Option String :=
  match s.generated_images.getLast? with
  | none => (s, none)
  | some _seed =>
      if mediaAvailable then
        match videoResult with
        | some fname =>
            let s1 := { s with
                generated_videos := s.generated_videos ++ [fname]
                scene_media_count :=
                  { s.scene_media_count with videos := s.scene_media_count.videos + 1 } }
            ({ s1 with generated_videos := s1.generated_videos ++ [fname] }, some fname)
        | none => (s, none)
      else (s, none)

/-- The dictionary returned by `create_story_climax` (fields the claims use). -/
structure ClimaxResult where
  final_choice : String
  story_complete : Bool
  deriving Repr, DecidableEq

/-- `create_story_climax`: epic climax video, backup choice image, finale
music (no state effect), `story_climax` history entry, and
`current_danger_level = 10`. -/
def create_story_climax (mediaAvailable : Bool) (videoResult imageResult : Option String)
    (final_choice : String) (s : GameState) : GameState × ClimaxResult :=
  let s1 := (create_epic_climax_video mediaAvailable videoResult
    final_choice s.current_scene s).1
  let s2 := (create_single_choice_image mediaAvailable imageResult
    ("final climactic decision: " ++ final_choice) "epic"
    ("The ultimate confrontation in " ++ s1.current_scene) s1).1
  let s3 := { s2 with
      story_history := s2.story_history ++ [StoryEvent.storyClimax final_choice] }
  let s4 := { s3 with current_danger_level := 10 }
  (s4, { final_choice := final_choice, story_complete := true })

/-- Collaborator outcomes available to one `/api/make-choice` request. -/
structure Collab where
  mediaAvailable : Bool
  textGen : Option String
  choiceImage : Option String
  aiChoices : Option (String × String × String)
  climaxVideo : Option String
  climaxImage : Option String
  deriving Repr, DecidableEq

/-- The `StoryResponse` fields of the boundary (story_progression omitted:
no claim inspects it). -/
structure StoryResponse where
  narrative : String
  choices : List String
  scene_description : String
  story_complete : Bool
  choices_remaining : Nat
  current_choice : Nat
  total_choices : Nat
  deriving Repr, DecidableEq

/-- `POST /api/make-choice`: resolves the choice, then either continues the
narrative and presents the next three choices (`user_choices_made < 5`) or
creates the climax (`story_complete=true`, empty choices).  An uncaught
exception from the agent layer surfaces as an HTTP 500: the `.error` case. -/
def make_choice (col : Collab) (choice : String) (s : GameState) :
    Except GameState (GameState × StoryResponse) :=
  let rr := resolve_user_choice col.textGen col.mediaAvailable col.choiceImage choice s
  let s1 := rr.1
  let m := rr.2.user_choices_made
  if m < 5 then
    match continue_narrative s1 with
    | Except.error e => Except.error e
    | Except.ok (s2, cr) =>
        let pr := present_story_choice col.aiChoices "" "" "" "" s2
        Except.ok (pr.1,
          { narrative := rr.2.ai_narrative
            choices := [pr.2.choice_a, pr.2.choice_b, pr.2.choice_c]
            scene_description := cr.current_scene
            story_complete := false
            choices_remaining := 5 - m
            current_choice := m
            total_choices := 5 })
  else
    let cx := create_story_climax col.mediaAvailable col.climaxVideo col.climaxImage
      choice s1
    Except.ok (cx.1,
      { narrative := rr.2.ai_narrative
        choices := []
        scene_description := cx.1.current_scene ++ " - FINALE"
        story_complete := true
        choices_remaining := 0
        current_choice := 5
        total_choices := 5 })

/-!
## Concrete executions of the standard five-choice flow

These states replay the documented flow (start → opening → 5 × (resolve →
continue/climax)) on concrete inputs, with every collaborator failing
(`colOff`) or with an always-successful image provider, and are used as the
concrete inputs of counterexamples and witnesses below.
-/

/-- All collaborators unavailable. -/
def colOff : Collab :=
  { mediaAvailable := false, textGen := none, choiceImage := none,
    aiChoices := none, climaxVideo := none, climaxImage := none }

/-- One agent-level round of the documented flow: `resolve_user_choice`
followed by `continue_narrative` (which succeeds on every round the flow
reaches it, rounds 1-4). -/
def agentStep (s : GameState) : GameState :=
  let s1 := (resolve_user_choice none false none "A" s).1
  match continue_narrative s1 with
  | Except.ok p => p.1
  | Except.error e => e

/-- State after `start_new_adventure("zeta quest")` from the initial state
(an unmatched request: generic scenario family). -/
def aS0 : GameState := (start_new_adventure "zeta quest" initialGameState).1

/-- State after the opening scene (media unavailable). -/
def aS1 : GameState := (begin_opening_scene false none aS0).1

/-- State after four resolve/continue rounds. -/
def aAfter4 : GameState := agentStep (agentStep (agentStep (agentStep aS1)))

/-- State immediately after the fifth resolved choice (before the climax). -/
def aAfter5resolve : GameState := (resolve_user_choice none false none "A" aAfter4).1

/-- Opening scene with the image provider succeeding. -/
def cS1 : GameState :=
  (begin_opening_scene true (some "generated_scene_opening.png") aS0).1

/-- First resolved choice with the image provider succeeding. -/
def cR1 : GameState :=
  (resolve_user_choice none true (some "generated_scene_choice.png") "A" cS1).1

/-- The state produced by one `/api/make-choice` call (all collaborators
failing); the boundary flow never reaches the `.error` case. -/
def mcState (s : GameState) : GameState :=
  match make_choice colOff "A" s with
  | Except.ok p => p.1
  | Except.error e => e

/-- State after `/api/start-story` (which also presents the first choice). -/
def bInit : GameState := (present_story_choice none "" "" "" "" aS1).1

/-- Boundary state after five `/api/make-choice` calls (the completed story). -/
def b5 : GameState := mcState (mcState (mcState (mcState (mcState bInit))))

/-- Boundary state after a sixth `/api/make-choice` call. -/
def b6 : GameState := mcState b5

/-- The mystical-clearing scene of the forest branch at `choices_made = 1`. -/
def forestClearing : String :=
  "A mystical clearing where reality bends and magic flows freely"

/-- A state whose scene mentions both "cyberpunk" and "forest", about to
continue after the first resolved choice. -/
def sceneBothFamilies : GameState :=
  { initialGameState with
      current_scene := "a cyberpunk forest", user_choices_made := 1 }

/-- A state about to continue after the second resolved choice. -/
def sAfterTwo : GameState := { initialGameState with user_choices_made := 2 }

/-- A forest-family state about to continue after the first resolved choice. -/
def sForestOne : GameState :=
  { initialGameState with current_scene := "a deep forest", user_choices_made := 1 }

/-- A state in which the fifth choice is about to be resolved. -/
def sFourResolved : GameState := { initialGameState with user_choices_made := 4 }

/-- A state carrying leftovers of a finished prior adventure. -/
def sPriorAdventure : GameState :=
  { initialGameState with
      characters_present := ["Pyraxis the Ancient - Wise but dangerous dragon"]
      current_danger_level := 9
      generated_images := ["generated_scene_20240101_120000.png"]
      generated_music := ["lyria_final_lair_dramatic_20240101_120000.wav"]
      world_knowledge := [("locations", "volcanic lair")]
      visual_style :=
        { initialGameState.visual_style with
            character_references :=
              [("Pyraxis", "generated_scene_20240101_120000.png")] } }

/-!
## Frame lemmas

Each operation only touches the state fields listed in its definition; these
projection lemmas record that and drive the claim proofs.
-/

theorem csci_fst_story_history (ma : Bool) (ir : Option String) (a d c : String)
    (s : GameState) :
    (create_single_choice_image ma ir a d c s).1.story_history = s.story_history := by
  cases ma <;> cases ir <;> rfl

theorem csci_fst_danger (ma : Bool) (ir : Option String) (a d c : String)
    (s : GameState) :
    (create_single_choice_image ma ir a d c s).1.current_danger_level =
      s.current_danger_level := by
  cases ma <;> cases ir <;> rfl

theorem csci_fst_choices (ma : Bool) (ir : Option String) (a d c : String)
    (s : GameState) :
    (create_single_choice_image ma ir a d c s).1.user_choices_made =
      s.user_choices_made := by
  cases ma <;> cases ir <;> rfl

theorem csci_fst_scene (ma : Bool) (ir : Option String) (a d c : String)
    (s : GameState) :
    (create_single_choice_image ma ir a d c s).1.current_scene = s.current_scene := by
  cases ma <;> cases ir <;> rfl

theorem csci_fst_characters (ma : Bool) (ir : Option String) (a d c : String)
    (s : GameState) :
    (create_single_choice_image ma ir a d c s).1.characters_present =
      s.characters_present := by
  cases ma <;> cases ir <;> rfl

theorem cecv_fst_story_history (ma : Bool) (vr : Option String) (f c : String)
    (s : GameState) :
    (create_epic_climax_video ma vr f c s).1.story_history = s.story_history := by
  cases h : s.generated_images.getLast? <;> cases ma <;> cases vr <;>
    simp [create_epic_climax_video, h]

theorem cecv_fst_choices (ma : Bool) (vr : Option String) (f c : String)
    (s : GameState) :
    (create_epic_climax_video ma vr f c s).1.user_choices_made =
      s.user_choices_made := by
  cases h : s.generated_images.getLast? <;> cases ma <;> cases vr <;>
    simp [create_epic_climax_video, h]

theorem cecv_fst_scene (ma : Bool) (vr : Option String) (f c : String)
    (s : GameState) :
    (create_epic_climax_video ma vr f c s).1.current_scene = s.current_scene := by
  cases h : s.generated_images.getLast? <;> cases ma <;> cases vr <;>
    simp [create_epic_climax_video, h]

theorem resolve_fst_choices (tg : Option String) (ma : Bool) (ir : Option String)
    (ch : String) (s : GameState) :
    (resolve_user_choice tg ma ir ch s).1.user_choices_made =
      s.user_choices_made + 1 := by
  cases ma <;> cases ir <;> rfl

theorem resolve_fst_danger (tg : Option String) (ma : Bool) (ir : Option String)
    (ch : String) (s : GameState) :
    (resolve_user_choice tg ma ir ch s).1.current_danger_level =
      s.current_danger_level + 1 := by
  cases ma <;> cases ir <;> rfl

theorem resolve_fst_scene (tg : Option String) (ma : Bool) (ir : Option String)
    (ch : String) (s : GameState) :
    (resolve_user_choice tg ma ir ch s).1.current_scene = s.current_scene := by
  cases ma <;> cases ir <;> rfl

theorem resolve_fst_history (tg : Option String) (ma : Bool) (ir : Option String)
    (ch : String) (s : GameState) :
    (resolve_user_choice tg ma ir ch s).1.story_history =
      s.story_history ++
        [StoryEvent.choiceResolution ch (resolve_narrative tg ch s.current_scene)] := by
  cases ma <;> cases ir <;> rfl

theorem resolve_snd_choices (tg : Option String) (ma : Bool) (ir : Option String)
    (ch : String) (s : GameState) :
    (resolve_user_choice tg ma ir ch s).2.user_choices_made =
      s.user_choices_made + 1 := by
  cases ma <;> cases ir <;> rfl

theorem resolve_snd_narrative (tg : Option String) (ma : Bool) (ir : Option String)
    (ch : String) (s : GameState) :
    (resolve_user_choice tg ma ir ch s).2.ai_narrative =
      resolve_narrative tg ch s.current_scene := by
  cases ma <;> cases ir <;> rfl

theorem climax_fst_history (ma : Bool) (vr ir : Option String) (f : String)
    (s : GameState) :
    (create_story_climax ma vr ir f s).1.story_history =
      s.story_history ++ [StoryEvent.storyClimax f] := by
  simp [create_story_climax, csci_fst_story_history, cecv_fst_story_history]

theorem climax_fst_danger (ma : Bool) (vr ir : Option String) (f : String)
    (s : GameState) :
    (create_story_climax ma vr ir f s).1.current_danger_level = 10 := rfl

theorem climax_fst_choices (ma : Bool) (vr ir : Option String) (f : String)
    (s : GameState) :
    (create_story_climax ma vr ir f s).1.user_choices_made = s.user_choices_made := by
  simp [create_story_climax, csci_fst_choices, cecv_fst_choices]

theorem present_fst_history (ai : Option (String × String × String))
    (sit a b c : String) (s : GameState) :
    (present_story_choice ai sit a b c s).1.story_history =
      s.story_history ++
        [StoryEvent.choiceMoment (derived_situation sit s.current_scene)] := rfl

theorem present_fst_choices (ai : Option (String × String × String))
    (sit a b c : String) (s : GameState) :
    (present_story_choice ai sit a b c s).1.user_choices_made =
      s.user_choices_made := rfl

theorem contBranch_isSome_of (c : Nat) (fam : Family) (scene : String)
    (h1 : 1 ≤ c) (h4 : c ≤ 4) : (contBranch c fam scene).isSome := by
  interval_cases c <;> cases fam <;> simp [contBranch]

theorem contBranch_eq_none (c : Nat) (fam : Family) (scene : String)
    (h : ¬(1 ≤ c ∧ c ≤ 4)) : contBranch c fam scene = none := by
  have h1 : c ≠ 1 := by omega
  have h2 : c ≠ 2 := by omega
  have h3 : c ≠ 3 := by omega
  have h4 : c ≠ 4 := by omega
  simp [contBranch, h1, h2, h3, h4]

theorem continue_narrative_of_contBranch (s : GameState) (ns narr : String)
    (chars : List String)
    (hb : contBranch s.user_choices_made (sceneFamily s.current_scene)
      s.current_scene = some (ns, narr, chars)) :
    continue_narrative s = Except.ok
      ({ s with
          current_scene := ns
          characters_present := s.characters_present ++ chars
          current_danger_level := min 10 (3 + s.user_choices_made * 2)
          story_history :=
            s.story_history ++
              [StoryEvent.storyContinuation narr ns s.user_choices_made] },
        { narrative := narr
          current_scene := ns
          user_choices_made := s.user_choices_made
          choices_remaining := 5 - s.user_choices_made
          danger_level := min 10 (3 + s.user_choices_made * 2) }) := by
  simp [continue_narrative, hb]

theorem continue_narrative_ok (s : GameState)
    (h1 : 1 ≤ s.user_choices_made) (h4 : s.user_choices_made ≤ 4) :
    ∃ ns narr chars,
      continue_narrative s = Except.ok
        ({ s with
            current_scene := ns
            characters_present := s.characters_present ++ chars
            current_danger_level := min 10 (3 + s.user_choices_made * 2)
            story_history :=
              s.story_history ++
                [StoryEvent.storyContinuation narr ns s.user_choices_made] },
          { narrative := narr
            current_scene := ns
            user_choices_made := s.user_choices_made
            choices_remaining := 5 - s.user_choices_made
            danger_level := min 10 (3 + s.user_choices_made * 2) }) := by
  have hs := contBranch_isSome_of s.user_choices_made
    (sceneFamily s.current_scene) s.current_scene h1 h4
  match h : contBranch s.user_choices_made (sceneFamily s.current_scene)
      s.current_scene with
  | none => rw [h] at hs; simp at hs
  | some (ns, narr, chars) =>
      exact ⟨ns, narr, chars, by simp [continue_narrative, h]⟩

theorem continue_narrative_error (s : GameState)
    (h : ¬(1 ≤ s.user_choices_made ∧ s.user_choices_made ≤ 4)) :
    continue_narrative s = Except.error
      { s with
          current_danger_level := min 10 (3 + s.user_choices_made * 2) } := by
  simp [continue_narrative, contBranch_eq_none _ _ _ h]

/-!
## Properties of the fallback narrative
-/

theorem fallback_narrative_ne_empty (ch sc : String) :
    fallback_narrative ch sc ≠ "" := by
  intro h
  have hl := congrArg String.length h
  simp only [fallback_narrative, String.length_append] at hl
  have h15 : ("Your choice to " : String).length = 15 := by decide
  have h0 : ("" : String).length = 0 := by decide
  omega

theorem fallback_narrative_contains_choice (ch sc : String) :
    containsStr (fallback_narrative ch sc) ch := by
  refine ⟨"Your choice to ",
    " has immediate consequences in " ++ sc ++
      ". The situation evolves as you face the results of your decision.", ?_⟩
  simp [fallback_narrative, String.append_assoc]

theorem fallback_narrative_contains_scene (ch sc : String) :
    containsStr (fallback_narrative ch sc) sc := by
  refine ⟨"Your choice to " ++ ch ++ " has immediate consequences in ",
    ". The situation evolves as you face the results of your decision.", ?_⟩
  simp [fallback_narrative, String.append_assoc]

/-!
## Claims
-/

/-- C3 (corrected, counterexample): `start_new_adventure` does NOT fully reset
the story state.  Starting a new adventure from a state carrying a prior
adventure's characters, danger level, media and visual references preserves
all of them instead of clearing them back to their initial values. -/
theorem start_reset_counterexample :
    (start_new_adventure "a new quest" sPriorAdventure).1.characters_present =
      ["Pyraxis the Ancient - Wise but dangerous dragon"] ∧
    ¬((start_new_adventure "a new quest" sPriorAdventure).1.characters_present = []) ∧
    (start_new_adventure "a new quest" sPriorAdventure).1.current_danger_level = 9 ∧
    ¬((start_new_adventure "a new quest" sPriorAdventure).1.current_danger_level = 1) ∧
    (start_new_adventure "a new quest" sPriorAdventure).1.generated_images =
      ["generated_scene_20240101_120000.png"] ∧
    (start_new_adventure "a new quest" sPriorAdventure).1.visual_style.character_references =
      [("Pyraxis", "generated_scene_20240101_120000.png")] := by
  refine ⟨rfl, by decide, rfl, by decide, rfl, rfl⟩

/-- C3 (corrected, amended): `start_new_adventure` resets exactly
`story_history`, `scene_media_count` and `user_choices_made` (and overwrites
scene, mood and art style); it preserves `characters_present`,
`current_danger_level`, the generated media lists, `world_knowledge`, and the
stored character/location visual references of the prior adventure. -/
theorem start_new_adventure_partial_reset (r : String) (s : GameState) :
    (start_new_adventure r s).1.story_history = [] ∧
    (start_new_adventure r s).1.scene_media_count =
      { images := 0, videos := 0, music := 0 } ∧
    (start_new_adventure r s).1.user_choices_made = 0 ∧
    (start_new_adventure r s).1.characters_present = s.characters_present ∧
    (start_new_adventure r s).1.current_danger_level = s.current_danger_level ∧
    (start_new_adventure r s).1.generated_images = s.generated_images ∧
    (start_new_adventure r s).1.generated_videos = s.generated_videos ∧
    (start_new_adventure r s).1.generated_music = s.generated_music ∧
    (start_new_adventure r s).1.world_knowledge = s.world_knowledge ∧
    (start_new_adventure r s).1.visual_style.character_references =
      s.visual_style.character_references ∧
    (start_new_adventure r s).1.visual_style.location_references =
      s.visual_style.location_references :=
  ⟨rfl, rfl, rfl, rfl, rfl, rfl, rfl, rfl, rfl, rfl, rfl⟩

/-- C6 (confirmed): when the text-generation collaborator fails,
`resolve_user_choice` still returns (it is a total function here, mirroring
the Python `try/except` that swallows the failure): the narrative is the
non-empty deterministic fallback containing the chosen option and the current
scene verbatim, and the choice counter and danger level advance exactly as
they do on collaborator success. -/
theorem resolve_fallback_never_fails (ma : Bool) (ir : Option String)
    (ch : String) (s : GameState) :
    (resolve_user_choice none ma ir ch s).2.ai_narrative ≠ "" ∧
    containsStr (resolve_user_choice none ma ir ch s).2.ai_narrative ch ∧
    containsStr (resolve_user_choice none ma ir ch s).2.ai_narrative s.current_scene ∧
    (resolve_user_choice none ma ir ch s).1.current_danger_level =
      s.current_danger_level + 1 ∧
    (resolve_user_choice none ma ir ch s).1.user_choices_made =
      s.user_choices_made + 1 ∧
    (∀ t : String,
      (resolve_user_choice (some t) ma ir ch s).1.current_danger_level =
        s.current_danger_level + 1 ∧
      (resolve_user_choice (some t) ma ir ch s).1.user_choices_made =
        s.user_choices_made + 1) := by
  refine ⟨?_, ?_, ?_, resolve_fst_danger none ma ir ch s,
    resolve_fst_choices none ma ir ch s,
    fun t => ⟨resolve_fst_danger (some t) ma ir ch s,
      resolve_fst_choices (some t) ma ir ch s⟩⟩
  · rw [resolve_snd_narrative]
    exact fallback_narrative_ne_empty ch s.current_scene
  · rw [resolve_snd_narrative]
    exact fallback_narrative_contains_choice ch s.current_scene
  · rw [resolve_snd_narrative]
    exact fallback_narrative_contains_scene ch s.current_scene

/-- C8 (confirmed): `start_new_adventure` is deterministic — its
classification result and the produced initial scene, mood and visual style
depend only on the request text, not on the prior state, and the story type
and scene come from the first-match keyword lookup `classify_story`. -/
theorem start_new_adventure_deterministic (r : String) (s1 s2 : GameState) :
    (start_new_adventure r s1).2 = (start_new_adventure r s2).2 ∧
    (start_new_adventure r s1).1.current_scene =
      (start_new_adventure r s2).1.current_scene ∧
    (start_new_adventure r s1).1.current_mood =
      (start_new_adventure r s2).1.current_mood ∧
    (start_new_adventure r s1).1.visual_style.art_style =
      (start_new_adventure r s2).1.visual_style.art_style ∧
    (start_new_adventure r s1).2.story_type = (classify_story r).1 ∧
    (start_new_adventure r s1).2.scenario = (classify_story r).2 ∧
    (start_new_adventure r s1).1.current_scene = (classify_story r).2.setting :=
  ⟨rfl, rfl, rfl, rfl, rfl, rfl, rfl⟩

/-- C9 (confirmed): on image-provider success, `create_single_choice_image`
appends the generated filename to `generated_images` twice (once inside
`generate_consistent_image`, once itself) and increments the images media
count by 2. -/
theorem single_choice_image_double_count (fn a d c : String) (s : GameState) :
    (create_single_choice_image true (some fn) a d c s).1.generated_images =
      s.generated_images ++ [fn, fn] ∧
    (create_single_choice_image true (some fn) a d c s).1.scene_media_count.images =
      s.scene_media_count.images + 2 ∧
    (create_single_choice_image true (some fn) a d c s).2 = some fn := by
  refine ⟨?_, rfl, rfl⟩
  simp [create_single_choice_image, generate_consistent_image]

/-- C10 (confirmed): `continue_narrative` returns a `ContinuationOutcome` only
under the precondition `user_choices_made` in 1..4; for any other value no
branch assigns the continuation, and the function dies with an uncaught
exception at the history-append step (the `.error` case, with the history
still unchanged) instead of returning. -/
theorem continue_narrative_precondition (s : GameState) :
    (¬(1 ≤ s.user_choices_made ∧ s.user_choices_made ≤ 4) →
      ∃ e, continue_narrative s = Except.error e ∧
        e.story_history = s.story_history) ∧
    (1 ≤ s.user_choices_made → s.user_choices_made ≤ 4 →
      ∃ p, continue_narrative s = Except.ok p) := by
  constructor
  · intro h
    exact ⟨_, continue_narrative_error s h, rfl⟩
  · intro h1 h4
    obtain ⟨ns, narr, chars, hok⟩ := continue_narrative_ok s h1 h4
    exact ⟨_, hok⟩

/-- Witness for the C10 theorem at `user_choices_made = 5` (raises) and
`user_choices_made = 2` (returns). -/
theorem continue_narrative_precondition_witness :
    (∃ e, continue_narrative { initialGameState with user_choices_made := 5 } =
        Except.error e ∧
      e.story_history =
        ({ initialGameState with user_choices_made := 5 } : GameState).story_history) ∧
    (∃ p, continue_narrative sAfterTwo = Except.ok p) :=
  ⟨(continue_narrative_precondition _).1 (by decide),
   (continue_narrative_precondition sAfterTwo).2 (by decide) (by decide)⟩

/-- C7 (corrected, counterexample): a current scene containing "forest" does
NOT always yield the mystical-clearing scene at `choicesMade = 1` — the
keyword families are tried in the order cyberpunk, atlantis, forest, so the
scene "a cyberpunk forest" (which contains "forest") takes the cyberpunk
branch instead. -/
theorem continue_forest_counterexample :
    strContainsLower sceneBothFamilies.current_scene "forest" = true ∧
    sceneBothFamilies.user_choices_made = 1 ∧
    (continue_narrative sceneBothFamilies).toOption.map
        (fun p => p.1.current_scene) =
      some "A hidden underground resistance hideout beneath Neo-Tokyo" ∧
    ¬((continue_narrative sceneBothFamilies).toOption.map
        (fun p => p.1.current_scene) = some forestClearing) := by
  refine ⟨by decide, rfl, by decide, by decide⟩

/-- C7 (corrected, amended): `continue_narrative` selects the new scene from
the branch table keyed by scenario family (first match in the order
cyberpunk, atlantis, forest, else generic) and choice count — for non-generic
families the selection does not depend on the rest of the scene text — and
recomputes the danger level as `min(10, 3 + choicesMade*2)`, giving 5, 7, 9,
10 for choicesMade 1..4.  With `choicesMade = 1` and a current scene of
family forest (it contains "forest" but neither "cyberpunk" nor "atlantis")
the new scene is exactly the mystical clearing and the danger level is 5. -/
theorem continue_narrative_table_spec :
    (∀ s : GameState, 1 ≤ s.user_choices_made → s.user_choices_made ≤ 4 →
      ∃ p, continue_narrative s = Except.ok p ∧
        p.1.current_danger_level = min 10 (3 + s.user_choices_made * 2) ∧
        p.2.danger_level = min 10 (3 + s.user_choices_made * 2)) ∧
    (∀ s : GameState, s.user_choices_made = 1 →
      sceneFamily s.current_scene = Family.forest →
      ∃ p, continue_narrative s = Except.ok p ∧
        p.1.current_scene = forestClearing ∧
        p.1.current_danger_level = 5) ∧
    (∀ (c : Nat) (fam : Family) (scene1 scene2 : String),
      fam ≠ Family.generic → contBranch c fam scene1 = contBranch c fam scene2) ∧
    (min 10 (3 + 1 * 2) = 5 ∧ min 10 (3 + 2 * 2) = 7 ∧
      min 10 (3 + 3 * 2) = 9 ∧ min 10 (3 + 4 * 2) = 10) := by
  refine ⟨?_, ?_, ?_, by decide⟩
  · intro s h1 h4
    obtain ⟨ns, narr, chars, hok⟩ := continue_narrative_ok s h1 h4
    exact ⟨_, hok, rfl, rfl⟩
  · intro s h1 hfam
    have hb : contBranch s.user_choices_made (sceneFamily s.current_scene)
        s.current_scene =
        some (forestClearing,
          "Your choice has opened a path deeper into the enchanted realm. You now stand in a clearing where the very air shimmers with magic, and you can see portals to other realms flickering in and out of existence.",
          []) := by
      rw [h1, hfam]
      rfl
    refine ⟨_, continue_narrative_of_contBranch s _ _ _ hb, rfl, ?_⟩
    show min 10 (3 + s.user_choices_made * 2) = 5
    rw [h1]
    decide
  · intro c fam scene1 scene2 hf
    cases fam with
    | generic => exact absurd rfl hf
    | cyberpunk => rfl
    | atlantis => rfl
    | forest => rfl

/-- Witness for the C7 amended theorem: the danger formula at
`choicesMade = 2`, the forest branch at "a deep forest", and the
scene-independence of the cyberpunk branch, each at concrete inputs. -/
theorem continue_narrative_table_spec_witness :
    (∃ p, continue_narrative sAfterTwo = Except.ok p ∧
      p.1.current_danger_level = min 10 (3 + sAfterTwo.user_choices_made * 2) ∧
      p.2.danger_level = min 10 (3 + sAfterTwo.user_choices_made * 2)) ∧
    (∃ p, continue_narrative sForestOne = Except.ok p ∧
      p.1.current_scene = forestClearing ∧
      p.1.current_danger_level = 5) ∧
    contBranch 2 Family.cyberpunk "scene one" = contBranch 2 Family.cyberpunk "scene two" :=
  ⟨continue_narrative_table_spec.1 sAfterTwo (by decide) (by decide),
   continue_narrative_table_spec.2.1 sForestOne (by decide) (by decide),
   continue_narrative_table_spec.2.2.1 2 Family.cyberpunk "scene one" "scene two"
     (by decide)⟩

/-- C4 (confirmed): when the fifth choice is resolved through
`/api/make-choice` (four prior choices), the orchestrator routes to the
climax — the resulting history gains a `story_climax` event and no
`story_continuation` event — and the boundary response has
`story_complete=true`, empty `choices`, `current_choice=5` and
`choices_remaining=0`.  For every earlier choice it instead routes to
`continue_narrative` followed by a new three-option choice presentation with
`story_complete=false`. -/
theorem make_choice_routing (col : Collab) (choice : String) (s : GameState) :
    (s.user_choices_made = 4 →
      ∃ p, make_choice col choice s = Except.ok p ∧
        p.2.story_complete = true ∧ p.2.choices = [] ∧
        p.2.current_choice = 5 ∧ p.2.choices_remaining = 0 ∧
        p.1.story_history =
          s.story_history ++
            [StoryEvent.choiceResolution choice
               (resolve_narrative col.textGen choice s.current_scene),
             StoryEvent.storyClimax choice]) ∧
    (s.user_choices_made < 4 →
      ∃ p, make_choice col choice s = Except.ok p ∧
        p.2.story_complete = false ∧ p.2.choices.length = 3 ∧
        p.2.current_choice = s.user_choices_made + 1 ∧
        p.2.choices_remaining = 5 - (s.user_choices_made + 1) ∧
        ∃ narr ns sit,
          p.1.story_history =
            s.story_history ++
              [StoryEvent.choiceResolution choice
                 (resolve_narrative col.textGen choice s.current_scene),
               StoryEvent.storyContinuation narr ns (s.user_choices_made + 1),
               StoryEvent.choiceMoment sit]) := by
  constructor
  · intro h4
    have hm : (resolve_user_choice col.textGen col.mediaAvailable col.choiceImage
        choice s).2.user_choices_made = 5 := by
      rw [resolve_snd_choices, h4]
    simp only [make_choice, hm]
    refine ⟨_, rfl, rfl, rfl, rfl, rfl, ?_⟩
    rw [climax_fst_history, resolve_fst_history]
    simp [List.append_assoc]
  · intro hlt
    have hm := resolve_snd_choices col.textGen col.mediaAvailable col.choiceImage
      choice s
    have hcond : (resolve_user_choice col.textGen col.mediaAvailable col.choiceImage
        choice s).2.user_choices_made < 5 := by omega
    obtain ⟨ns, narr, chars, hok⟩ := continue_narrative_ok
      (resolve_user_choice col.textGen col.mediaAvailable col.choiceImage choice s).1
      (by rw [resolve_fst_choices]; omega)
      (by rw [resolve_fst_choices]; omega)
    simp only [make_choice]
    rw [if_pos hcond, hok]
    refine ⟨_, rfl, rfl, rfl, hm, ?_, ?_⟩
    · rw [hm]
    · refine ⟨narr, ns, derived_situation "" ns, ?_⟩
      simp only [present_fst_history, resolve_fst_history, resolve_fst_choices]
      simp [List.append_assoc]

/-- Witness for the C4 theorem: the climax route at four prior resolved
choices and the continue route at zero prior resolved choices, on concrete
states with all collaborators failing. -/
theorem make_choice_routing_witness :
    (∃ p, make_choice colOff "A" sFourResolved = Except.ok p ∧
      p.2.story_complete = true ∧ p.2.choices = [] ∧
      p.2.current_choice = 5 ∧ p.2.choices_remaining = 0 ∧
      p.1.story_history =
        sFourResolved.story_history ++
          [StoryEvent.choiceResolution "A"
             (resolve_narrative colOff.textGen "A" sFourResolved.current_scene),
           StoryEvent.storyClimax "A"]) ∧
    (∃ p, make_choice colOff "A" initialGameState = Except.ok p ∧
      p.2.story_complete = false ∧ p.2.choices.length = 3 ∧
      p.2.current_choice = initialGameState.user_choices_made + 1 ∧
      p.2.choices_remaining = 5 - (initialGameState.user_choices_made + 1) ∧
      ∃ narr ns sit,
        p.1.story_history =
          initialGameState.story_history ++
            [StoryEvent.choiceResolution "A"
               (resolve_narrative colOff.textGen "A" initialGameState.current_scene),
             StoryEvent.storyContinuation narr ns
               (initialGameState.user_choices_made + 1),
             StoryEvent.choiceMoment sit]) :=
  ⟨(make_choice_routing colOff "A" sFourResolved).1 rfl,
   (make_choice_routing colOff "A" initialGameState).2 (by decide)⟩

/-- C5 (corrected, counterexample): a choice resolved after the fifth is NOT
rejected.  After the boundary flow start → opening → first choice
presentation → five `/api/make-choice` calls, `user_choices_made` is 5; a
sixth `/api/make-choice` call succeeds (no error) and silently drives
`user_choices_made` to 6. -/
theorem sixth_choice_processed :
    b5.user_choices_made = 5 ∧
    b6.user_choices_made = 6 ∧
    ¬(b6.user_choices_made ≤ 5) ∧
    (∃ p, make_choice colOff "A" b5 = Except.ok p) := by
  refine ⟨rfl, rfl, by decide, ⟨_, rfl⟩⟩

/-- C5 (corrected, amended): `user_choices_made` strictly increases by
exactly 1 per boundary `make_choice` call, but no call is ever rejected:
every call — including any call after the fifth resolved choice, which
re-runs the climax branch — returns successfully, so repeated boundary calls
drive `user_choices_made` above 5. -/
theorem make_choice_always_increments (col : Collab) (choice : String)
    (s : GameState) :
    ∃ p, make_choice col choice s = Except.ok p ∧
      p.1.user_choices_made = s.user_choices_made + 1 := by
  have hm := resolve_snd_choices col.textGen col.mediaAvailable col.choiceImage
    choice s
  by_cases h : (resolve_user_choice col.textGen col.mediaAvailable col.choiceImage
      choice s).2.user_choices_made < 5
  · obtain ⟨ns, narr, chars, hok⟩ := continue_narrative_ok
      (resolve_user_choice col.textGen col.mediaAvailable col.choiceImage choice s).1
      (by rw [resolve_fst_choices]; omega)
      (by rw [resolve_fst_choices]; omega)
    simp only [make_choice]
    rw [if_pos h, hok]
    refine ⟨_, rfl, ?_⟩
    rw [present_fst_choices]
    show (resolve_user_choice col.textGen col.mediaAvailable col.choiceImage
      choice s).1.user_choices_made = s.user_choices_made + 1
    rw [resolve_fst_choices]
  · simp only [make_choice]
    rw [if_neg h]
    refine ⟨_, rfl, ?_⟩
    rw [climax_fst_choices, resolve_fst_choices]

/-- C1 (code_bug): `resolve_user_choice` increments the danger level by
exactly 1 with NO cap at 10, so in the standard five-choice flow (which keeps
the danger level at 10 after the fourth continue step) the state immediately
after the fifth resolved choice has `current_danger_level = 11`, outside the
documented 1-10 scale; `create_story_climax` then forces it back to 10. -/
theorem danger_uncapped_after_fifth_resolve :
    (∀ (tg : Option String) (ma : Bool) (ir : Option String) (ch : String)
        (s : GameState),
      (resolve_user_choice tg ma ir ch s).1.current_danger_level =
        s.current_danger_level + 1) ∧
    initialGameState.current_danger_level = 1 ∧
    aAfter4.user_choices_made = 4 ∧
    aAfter4.current_danger_level = 10 ∧
    aAfter5resolve.user_choices_made = 5 ∧
    aAfter5resolve.current_danger_level = 11 ∧
    ¬(aAfter5resolve.current_danger_level ≤ 10) ∧
    (create_story_climax false none none "A"
      aAfter5resolve).1.current_danger_level = 10 := by
  refine ⟨resolve_fst_danger, rfl, rfl, rfl, rfl, rfl, by decide, rfl⟩

/-- C2 (corrected, counterexample): the images media count exceeds 1 inside
the structured flow.  After the opening scene generates the single
establishing image (count 1), the first resolved choice with a successful
image provider pushes the count to 3 (and duplicates the filename). -/
theorem images_count_exceeds_one :
    cS1.scene_media_count.images = 1 ∧
    cR1.scene_media_count.images = 3 ∧
    ¬(cR1.scene_media_count.images ≤ 1) ∧
    cR1.generated_images =
      ["generated_scene_opening.png", "generated_scene_choice.png",
       "generated_scene_choice.png"] := by
  refine ⟨rfl, rfl, by decide, rfl⟩

/-- C2 (corrected, amended): only the establishing-scene step checks the
images count against the cap of 1 before calling the image provider;
`create_single_choice_image`, run on every choice resolution, performs no
check and on success raises the count by 2, so one opening image plus one
successful choice image already put the count at 3. -/
theorem image_budget_partial_enforcement :
    (∀ (ma : Bool) (ir : Option String) (loc mood det chars : String)
        (s : GameState),
      1 ≤ s.scene_media_count.images →
      generate_establishing_scene ma ir loc mood det chars s = (s, none)) ∧
    (∀ (fn a d c : String) (s : GameState),
      (create_single_choice_image true (some fn) a d c s).1.scene_media_count.images =
        s.scene_media_count.images + 2) ∧
    cS1.scene_media_count.images = 1 ∧
    cR1.scene_media_count.images = 3 := by
  refine ⟨?_, fun fn a d c s => rfl, rfl, rfl⟩
  intro ma ir loc mood det chars s h
  have hc : ¬(s.scene_media_count.images < 1 ∧ ma = true) := by
    intro hc
    exact absurd hc.1 (by omega)
  simp only [generate_establishing_scene, if_neg hc]

/-- Witness for the C2 amended theorem: with the count already at 1 (the
state after the opening image), an establishing-scene request does not
generate even when the provider would succeed. -/
theorem image_budget_partial_enforcement_witness :
    generate_establishing_scene true (some "generated_scene_extra.png")
      "loc" "mysterious" "" "" cS1 = (cS1, none) :=
  image_budget_partial_enforcement.1 true (some "generated_scene_extra.png")
    "loc" "mysterious" "" "" cS1 (by decide)
